import Mathlib

/-!
Shallow embedding of the `ThemeManager` class from `js/theme.js` of the
portfolio site. The browser environment (localStorage, matchMedia, the
document) is modelled as explicit fields of a `ThemeState` record, and each
method of the class becomes a state-transition function. JavaScript string
truthiness (`a || b`) is modelled by `jsOrElse`; a failing `localStorage`
access is modelled by `localStorageGetItem` returning `Except.error`, which
the try/catch in `getStoredTheme` converts into an absent value plus a
console warning (counted in `warnings`). `themeChanged` events are recorded
in `events` as the list of their `detail.theme` payloads, in emission order.
-/

namespace ThemeManagerJs

/-- JavaScript `a || b` for a string-or-null `a`: `null` and the empty
string are falsy, any other string is returned unchanged. -/
def jsOrElse (a : Option String) (b : String) : String :=
  match a with
  | none => b
  | some s => if s = "" then b else s

/-- JavaScript truthiness of a string-or-null value, as used by
`if (!this.getStoredTheme())`. -/
def truthy (a : Option String) : Bool :=
  match a with
  | none => false
  | some s => s != ""

/-- The whole world the `ThemeManager` instance touches: browser capability
flags, the persisted `"theme"` key, the instance field `currentTheme`, the
document-level markers, and the log of emitted `themeChanged` payloads. -/
structure ThemeState where
  /-- `localStorage` can be read and written without throwing. -/
  storageAvailable : Bool
  /-- `window.matchMedia` exists. -/
  matchMediaAvailable : Bool
  /-- the OS-level `(prefers-color-scheme: dark)` query matches. -/
  prefersDark : Bool
  /-- `document.getElementById("theme-toggle")` found the toggle button. -/
  hasToggle : Bool
  /-- the value persisted under the `"theme"` key, when any. -/
  stored : Option String
  /-- the instance field `this.currentTheme`. -/
  currentTheme : String
  /-- the `data-theme` attribute of `document.documentElement`. -/
  dataTheme : Option String
  /-- the `content` of the `meta[name="theme-color"]` tag. -/
  metaColor : Option String
  /-- the `aria-label` of the toggle button. -/
  ariaLabel : Option String
  /-- payloads (`detail.theme`) of the `themeChanged` events emitted so far. -/
  events : List String
  /-- number of `console.warn` calls so far. -/
  warnings : Nat
deriving DecidableEq, Repr

/-- `getSystemTheme()`: `window.matchMedia && window.matchMedia(...).matches`
gives `"dark"`, otherwise `"light"`. -/
def getSystemTheme (st : ThemeState) : String :=
  if st.matchMediaAvailable && st.prefersDark then "dark" else "light"

/-- The raw `localStorage.getItem("theme")` call, which throws when storage
is unavailable (e.g. privacy mode). -/
def localStorageGetItem (st : ThemeState) : Except String (Option String) :=
  if st.storageAvailable then Except.ok st.stored
  else Except.error "localStorage not available"

/-- `getStoredTheme()`: try/catch around `localStorage.getItem("theme")`;
on failure it warns (second component counts the `console.warn`) and
returns `null`. -/
def getStoredTheme (st : ThemeState) : Option String × Nat :=
  match localStorageGetItem st with
  | Except.ok v => (v, 0)
  | Except.error _ => (none, 1)

/-- `storeTheme(theme)`: try/catch around `localStorage.setItem`; a failure
is only logged. -/
def storeTheme (theme : String) (st : ThemeState) : ThemeState :=
  if st.storageAvailable then { st with stored := some theme }
  else { st with warnings := st.warnings + 1 }

/-- The property keys of `Object.prototype`, which a JavaScript bracket
lookup on the `colors` object literal reaches through the prototype chain
when the key is not one of the literal's own two keys. The value inherited
at each of them is truthy: a built-in function, or (for the `__proto__`
accessor) `Object.prototype` itself. -/
def objectProtoKeys : List String :=
  ["constructor", "hasOwnProperty", "isPrototypeOf", "propertyIsEnumerable",
   "toLocaleString", "toString", "valueOf", "__defineGetter__",
   "__defineSetter__", "__lookupGetter__", "__lookupSetter__", "__proto__"]

/-- The ToString of the value inherited from `Object.prototype` at key `k`:
assigning that value to `meta.content` stores this string. Built-in
functions stringify in the standard NativeFunction form; the `__proto__`
getter yields `Object.prototype`, which stringifies as `[object Object]`. -/
def objectProtoString (k : String) : String :=
  if k = "__proto__" then "[object Object]"
  else if k = "constructor" then "function Object() \x7b [native code] \x7d"
  else "function " ++ k ++ "() \x7b [native code] \x7d"

/-- The lookup `colors[theme]` on the object literal of
`updateMetaThemeColor`: its two own keys first, then the prototype chain
(`Object.prototype`), and `undefined` (`none`) only off both; inherited
values are recorded as the string `meta.content` receives, which is
faithful because they are truthy and their ToString is nonempty. -/
def colorsLookup (theme : String) : Option String :=
  if theme = "light" then some "#ffffff"
  else if theme = "dark" then some "#0f172a"
  else if theme ∈ objectProtoKeys then some (objectProtoString theme)
  else none

/-- `updateMetaThemeColor(theme)`: creates the meta tag when absent and sets
its `content` to `colors[theme] || colors.light`. -/
def updateMetaThemeColor (theme : String) (st : ThemeState) : ThemeState :=
  { st with metaColor := some (jsOrElse (colorsLookup theme) "#ffffff") }

/-- `updateToggleLabel()`: when the toggle button exists, set its
`aria-label` from `this.currentTheme`. -/
def updateToggleLabel (st : ThemeState) : ThemeState :=
  if st.hasToggle then
    { st with ariaLabel := some (if st.currentTheme = "dark"
        then "Ativar modo claro" else "Ativar modo escuro") }
  else st

/-- `applyTheme(theme)`: sets `currentTheme` and the `data-theme` attribute,
updates the meta color, persists the preference, refreshes the toggle label,
and dispatches one `themeChanged` event carrying the theme. -/
def applyTheme (theme : String) (st : ThemeState) : ThemeState :=
  let st1 := { st with currentTheme := theme, dataTheme := some theme }
  let st2 := updateMetaThemeColor theme st1
  let st3 := storeTheme theme st2
  let st4 := updateToggleLabel st3
  { st4 with events := st4.events ++ [theme] }

/-- `toggleTheme()`: flip `currentTheme` and apply it (the cosmetic button
scale animation has no modelled effect). -/
def toggleTheme (st : ThemeState) : ThemeState :=
  applyTheme (if st.currentTheme = "dark" then "light" else "dark") st

/-- `setTheme(theme)`: apply only the two valid literals, otherwise do
nothing. -/
def setTheme (theme : String) (st : ThemeState) : ThemeState :=
  if theme = "dark" ∨ theme = "light" then applyTheme theme st else st

/-- `getCurrentTheme()`. -/
def getCurrentTheme (st : ThemeState) : String :=
  st.currentTheme

/-- `init()`: apply the initial theme, register the listeners (modelled as
the separate transition functions below), and refresh the toggle label. -/
def init (st : ThemeState) : ThemeState :=
  updateToggleLabel (applyTheme st.currentTheme st)

/-- The constructor: `this.currentTheme = this.getStoredTheme() ||
this.getSystemTheme()`, then `this.init()`. -/
def themeManagerConstructor (st : ThemeState) : ThemeState :=
  let r := getStoredTheme st
  init { st with currentTheme := jsOrElse r.1 (getSystemTheme st),
                 warnings := st.warnings + r.2 }

/-- The `(prefers-color-scheme: dark)` change listener registered by
`init`: it only exists when `window.matchMedia` does, and applies the new
OS mode only when `getStoredTheme()` is falsy. -/
def osPreferenceChange (osDark : Bool) (st : ThemeState) : ThemeState :=
  if st.matchMediaAvailable then
    let st1 := { st with prefersDark := osDark }
    let r := getStoredTheme st1
    let st2 := { st1 with warnings := st1.warnings + r.2 }
    if truthy r.1 then st2
    else applyTheme (if osDark then "dark" else "light") st2
  else st

/-- A generic browser state used to instantiate witnesses: storage and
matchMedia work, the OS prefers dark, the toggle button exists, nothing is
stored and nothing has happened yet. -/
def baseState : ThemeState :=
  { storageAvailable := true
    matchMediaAvailable := true
    prefersDark := true
    hasToggle := true
    stored := none
    currentTheme := "light"
    dataTheme := none
    metaColor := none
    ariaLabel := none
    events := []
    warnings := 0 }

/-! ### Characterisation lemmas -/

theorem updateToggleLabel_eq (st : ThemeState) :
    updateToggleLabel st =
      { st with ariaLabel :=
          (if st.hasToggle then
            some (if st.currentTheme = "dark" then "Ativar modo claro"
              else "Ativar modo escuro")
          else st.ariaLabel) } := by
  obtain ⟨a, b, c, d, e, f, g, h, i, j, k⟩ := st
  unfold updateToggleLabel
  cases d <;> simp

theorem applyTheme_eq (t : String) (st : ThemeState) :
    applyTheme t st =
      { st with
          currentTheme := t
          dataTheme := some t
          metaColor := some (jsOrElse (colorsLookup t) "#ffffff")
          stored := if st.storageAvailable then some t else st.stored
          warnings := (if st.storageAvailable then st.warnings
            else st.warnings + 1)
          ariaLabel :=
            (if st.hasToggle then
              some (if t = "dark" then "Ativar modo claro"
                else "Ativar modo escuro")
            else st.ariaLabel)
          events := st.events ++ [t] } := by
  unfold applyTheme updateMetaThemeColor storeTheme
  by_cases h1 : st.storageAvailable <;> by_cases h2 : st.hasToggle <;>
    simp [updateToggleLabel_eq, h1, h2]

theorem getSystemTheme_ne_empty (st : ThemeState) : getSystemTheme st ≠ "" := by
  unfold getSystemTheme
  split <;> simp

theorem jsOrElse_ne_empty (a : Option String) (b : String) (hb : b ≠ "") :
    jsOrElse a b ≠ "" := by
  unfold jsOrElse
  cases a with
  | none => exact hb
  | some s => by_cases h : s = "" <;> simp [h, hb]

theorem themeManagerConstructor_eq (st : ThemeState) :
    themeManagerConstructor st =
      (let cur := jsOrElse (getStoredTheme st).1 (getSystemTheme st)
       { st with
          currentTheme := cur
          dataTheme := some cur
          metaColor := some (jsOrElse (colorsLookup cur) "#ffffff")
          stored := (if st.storageAvailable then some cur else st.stored)
          warnings := (if st.storageAvailable
            then st.warnings + (getStoredTheme st).2
            else st.warnings + (getStoredTheme st).2 + 1)
          ariaLabel :=
            (if st.hasToggle then
              some (if cur = "dark" then "Ativar modo claro"
                else "Ativar modo escuro")
            else st.ariaLabel)
          events := st.events ++ [cur] }) := by
  unfold themeManagerConstructor init
  by_cases h1 : st.storageAvailable <;> by_cases h2 : st.hasToggle <;>
    simp [applyTheme_eq, updateToggleLabel_eq, h1, h2]

theorem osPreferenceChange_eq (osDark : Bool) (st : ThemeState) :
    osPreferenceChange osDark st =
      (if st.matchMediaAvailable then
        (if truthy (getStoredTheme st).1 then
          { st with prefersDark := osDark,
                    warnings := st.warnings + (getStoredTheme st).2 }
        else applyTheme (if osDark then "dark" else "light")
          { st with prefersDark := osDark,
                    warnings := st.warnings + (getStoredTheme st).2 })
      else st) := by
  unfold osPreferenceChange
  rfl

theorem constructor_currentTheme (st : ThemeState) :
    (themeManagerConstructor st).currentTheme =
      jsOrElse (getStoredTheme st).1 (getSystemTheme st) := by
  rw [themeManagerConstructor_eq]

/-- The events that can reach the manager after construction: a toggle
activation (click or keyboard), a programmatic `setTheme`, or an OS
preference change. -/
inductive UserEvent where
  | toggle : UserEvent
  | setThemeEv : String → UserEvent
  | osChange : Bool → UserEvent
deriving DecidableEq, Repr

/-- Dispatch one post-construction event to its handler. -/
def stepEvent (e : UserEvent) (st : ThemeState) : ThemeState :=
  match e with
  | UserEvent.toggle => toggleTheme st
  | UserEvent.setThemeEv t => setTheme t st
  | UserEvent.osChange b => osPreferenceChange b st

/-- Run a whole sequence of post-construction events. -/
def runEvents (evs : List UserEvent) (st : ThemeState) : ThemeState :=
  evs.foldl (fun s e => stepEvent e s) st

/-- Storage works and the persisted value is truthy, so the
`!this.getStoredTheme()` guard of the OS-change listener fails. -/
def themeGuardInv (st : ThemeState) : Prop :=
  st.storageAvailable = true ∧ truthy (getStoredTheme st).1 = true

theorem truthy_some_ne (s : String) (h : s ≠ "") : truthy (some s) = true := by
  simp [truthy, h]

theorem applyTheme_inv (t : String) (st : ThemeState) (ht : t ≠ "")
    (h : st.storageAvailable = true) : themeGuardInv (applyTheme t st) := by
  refine ⟨?_, ?_⟩ <;>
    simp [applyTheme_eq, getStoredTheme, localStorageGetItem, h,
      truthy_some_ne t ht]

theorem stepEvent_inv (e : UserEvent) (st : ThemeState)
    (h : themeGuardInv st) : themeGuardInv (stepEvent e st) := by
  obtain ⟨hsa, ht⟩ := h
  cases e with
  | toggle =>
    dsimp only [stepEvent]
    unfold toggleTheme
    apply applyTheme_inv _ _ _ hsa
    split <;> simp
  | setThemeEv t =>
    dsimp only [stepEvent]
    unfold setTheme
    split
    · rename_i hv
      refine applyTheme_inv _ _ ?_ hsa
      rcases hv with hv | hv <;> subst hv <;> simp
    · exact ⟨hsa, ht⟩
  | osChange b =>
    dsimp only [stepEvent]
    rw [osPreferenceChange_eq]
    have ht2 : truthy st.stored = true := by
      simpa [getStoredTheme, localStorageGetItem, hsa] using ht
    by_cases hmm : st.matchMediaAvailable = true
    · rw [if_pos hmm, if_pos ht]
      refine ⟨by simpa using hsa, ?_⟩
      simp [getStoredTheme, localStorageGetItem, hsa, ht2]
    · rw [if_neg hmm]
      exact ⟨hsa, ht⟩

theorem runEvents_inv (evs : List UserEvent) (st : ThemeState)
    (h : themeGuardInv st) : themeGuardInv (runEvents evs st) := by
  induction evs generalizing st with
  | nil => exact h
  | cons e es ih =>
    have : runEvents (e :: es) st = runEvents es (stepEvent e st) := by
      simp [runEvents]
    rw [this]
    exact ih _ (stepEvent_inv e st h)

theorem osChange_fixes_currentTheme (b : Bool) (st : ThemeState)
    (h : themeGuardInv st) :
    (osPreferenceChange b st).currentTheme = st.currentTheme := by
  obtain ⟨hsa, ht⟩ := h
  rw [osPreferenceChange_eq]
  by_cases hmm : st.matchMediaAvailable <;> simp [hmm, ht]

theorem constructor_inv (st : ThemeState) (hsa : st.storageAvailable = true) :
    themeGuardInv (themeManagerConstructor st) := by
  have hne : jsOrElse st.stored (getSystemTheme st) ≠ "" :=
    jsOrElse_ne_empty _ _ (getSystemTheme_ne_empty st)
  rw [themeManagerConstructor_eq]
  constructor
  · simpa using hsa
  · simp [getStoredTheme, localStorageGetItem, hsa, truthy_some_ne _ hne]

/-! ### Claims -/

/-- C1: for every stored theme value in `{light, dark}`, the constructor
resolves `currentTheme` to exactly that stored value, whatever the OS
color-scheme preference or matchMedia availability is. -/
theorem startup_stored_value_overrides_os (st : ThemeState) (t : String)
    (hval : t = "light" ∨ t = "dark")
    (hstored : (getStoredTheme st).1 = some t) :
    (themeManagerConstructor st).currentTheme = t := by
  rw [constructor_currentTheme, hstored]
  rcases hval with h | h <;> subst h <;> simp [jsOrElse]

theorem startup_stored_value_overrides_os_witness :
    (themeManagerConstructor
      { baseState with stored := some "light" }).currentTheme = "light" :=
  startup_stored_value_overrides_os _ "light" (Or.inl rfl) rfl

/-- C2: with no stored value, the constructor resolves `currentTheme` to
the OS-reported preference (dark exactly when matchMedia exists and the
dark query matches), and `getSystemTheme` falls back to light when
matchMedia is unavailable. -/
theorem startup_absent_uses_system_preference :
    (∀ st : ThemeState, (getStoredTheme st).1 = none →
      (themeManagerConstructor st).currentTheme =
        (if st.matchMediaAvailable && st.prefersDark then "dark"
          else "light")) ∧
    (∀ st : ThemeState, st.matchMediaAvailable = false →
      getSystemTheme st = "light") := by
  constructor
  · intro st h
    rw [constructor_currentTheme, h]
    rfl
  · intro st h
    simp [getSystemTheme, h]

theorem startup_absent_uses_system_preference_witness :
    (themeManagerConstructor baseState).currentTheme = "dark" ∧
    getSystemTheme { baseState with matchMediaAvailable := false }
      = "light" := by
  constructor
  · simpa using startup_absent_uses_system_preference.1 baseState rfl
  · exact startup_absent_uses_system_preference.2 _ rfl

/-- C3: `toggleTheme` is an involution on `currentTheme` for both modes. -/
theorem toggleTheme_involution (st : ThemeState)
    (h : st.currentTheme = "light" ∨ st.currentTheme = "dark") :
    (toggleTheme (toggleTheme st)).currentTheme = st.currentTheme := by
  unfold toggleTheme
  rcases h with h | h <;> simp [applyTheme_eq, h]

theorem toggleTheme_involution_witness :
    (toggleTheme (toggleTheme baseState)).currentTheme
      = baseState.currentTheme :=
  toggleTheme_involution baseState (Or.inl rfl)

/-- C4: `applyTheme` is idempotent on the `data-theme` marker and the meta
theme color, and each call emits exactly one `themeChanged` event (two
calls, two events, no extras). -/
theorem applyTheme_idempotent (mode : String) (st : ThemeState) :
    (applyTheme mode (applyTheme mode st)).dataTheme
        = (applyTheme mode st).dataTheme ∧
    (applyTheme mode (applyTheme mode st)).metaColor
        = (applyTheme mode st).metaColor ∧
    (applyTheme mode st).events = st.events ++ [mode] ∧
    (applyTheme mode (applyTheme mode st)).events
        = st.events ++ [mode, mode] := by
  simp [applyTheme_eq]

/-- C5: an OS preference-change event (its listener exists only when
matchMedia does) leaves `currentTheme` unchanged whenever a stored theme
value in `{light, dark}` exists, and applies the new OS-reported mode when
no stored value exists. -/
theorem os_change_only_when_unstored (st : ThemeState) (osDark : Bool)
    (hmm : st.matchMediaAvailable = true) :
    (∀ t, (getStoredTheme st).1 = some t → (t = "light" ∨ t = "dark") →
      (osPreferenceChange osDark st).currentTheme = st.currentTheme) ∧
    ((getStoredTheme st).1 = none →
      (osPreferenceChange osDark st).currentTheme =
        (if osDark then "dark" else "light")) := by
  constructor
  · intro t hsome hval
    have ht : truthy (getStoredTheme st).1 = true := by
      rw [hsome]
      rcases hval with h | h <;> subst h <;> rfl
    rw [osPreferenceChange_eq, if_pos hmm, if_pos ht]
  · intro hnone
    have ht : truthy (getStoredTheme st).1 = false := by
      rw [hnone]
      rfl
    rw [osPreferenceChange_eq, if_pos hmm, if_neg (by simp [ht])]
    simp [applyTheme_eq]

theorem os_change_only_when_unstored_witness :
    (osPreferenceChange false
      { baseState with stored := some "dark", currentTheme := "dark"
      }).currentTheme = "dark" ∧
    (osPreferenceChange true baseState).currentTheme = "dark" := by
  constructor
  · exact (os_change_only_when_unstored _ false rfl).1 "dark" rfl (Or.inr rfl)
  · simpa using (os_change_only_when_unstored baseState true rfl).2 rfl

/-- C6 counterexample: at mode `"constructor"` — outside `{light, dark}` —
the lookup `colors[theme]` hits the inherited `Object.prototype`
constructor, a truthy value, so `colors[theme] || colors.light` does not
fall back and the meta color is not `#ffffff`. -/
theorem updateMetaThemeColor_proto_counterexample :
    (updateMetaThemeColor "constructor" baseState).metaColor
      ≠ some "#ffffff" := by
  decide

/-- C6 (amended): the meta theme-color mapping is light to `#ffffff`, dark
to `#0f172a`; a mode outside `{light, dark}` falls back to light's
`#ffffff` only when it is not an `Object.prototype` property name, while at
an `Object.prototype` property name the truthy inherited value wins the
`||` and its ToString becomes the content. -/
theorem updateMetaThemeColor_colors_amended :
    (∀ st : ThemeState,
      (updateMetaThemeColor "light" st).metaColor = some "#ffffff") ∧
    (∀ st : ThemeState,
      (updateMetaThemeColor "dark" st).metaColor = some "#0f172a") ∧
    (∀ (st : ThemeState) (mode : String), mode ≠ "light" → mode ≠ "dark" →
      mode ∉ objectProtoKeys →
      (updateMetaThemeColor mode st).metaColor = some "#ffffff") ∧
    (∀ (st : ThemeState) (mode : String), mode ∈ objectProtoKeys →
      (updateMetaThemeColor mode st).metaColor
        = some (objectProtoString mode)) := by
  refine ⟨fun st => rfl, fun st => rfl, ?_, ?_⟩
  · intro st mode h1 h2 h3
    simp [updateMetaThemeColor, colorsLookup, jsOrElse, h1, h2, h3]
  · intro st mode h3
    simp [objectProtoKeys] at h3
    rcases h3 with h | h | h | h | h | h | h | h | h | h | h | h <;>
      subst h <;> rfl

theorem updateMetaThemeColor_colors_amended_witness :
    (updateMetaThemeColor "blue" baseState).metaColor = some "#ffffff" ∧
    (updateMetaThemeColor "toString" baseState).metaColor
      = some (objectProtoString "toString") := by
  constructor
  · exact updateMetaThemeColor_colors_amended.2.2.1 baseState "blue"
      (by decide) (by decide) (by decide)
  · exact updateMetaThemeColor_colors_amended.2.2.2 baseState "toString"
      (by decide)

/-- C7: `getStoredTheme` never propagates a storage exception: when the raw
read succeeds it returns the stored value with no warning, and when the raw
read throws it returns absent (`none`) and logs one warning. -/
theorem getStoredTheme_never_throws (st : ThemeState) :
    (∀ v, localStorageGetItem st = Except.ok v →
      getStoredTheme st = (v, 0)) ∧
    (∀ e, localStorageGetItem st = Except.error e →
      getStoredTheme st = (none, 1)) := by
  constructor <;> intro x h <;> simp [getStoredTheme, h]

theorem getStoredTheme_never_throws_witness :
    getStoredTheme { baseState with storageAvailable := false }
      = (none, 1) :=
  (getStoredTheme_never_throws _).2 "localStorage not available" rfl

/-- C8: toggling from light with storage available ends with mode dark, the
stored value `"dark"`, and exactly one `themeChanged` event with payload
dark. -/
theorem toggle_from_light (st : ThemeState)
    (h : st.currentTheme = "light") (hsa : st.storageAvailable = true) :
    (toggleTheme st).currentTheme = "dark" ∧
    (toggleTheme st).stored = some "dark" ∧
    (toggleTheme st).events = st.events ++ ["dark"] := by
  unfold toggleTheme
  simp [applyTheme_eq, h, hsa]

theorem toggle_from_light_witness :
    (toggleTheme baseState).currentTheme = "dark" ∧
    (toggleTheme baseState).stored = some "dark" ∧
    (toggleTheme baseState).events = baseState.events ++ ["dark"] :=
  toggle_from_light baseState rfl rfl

/-- C9: `applyTheme` persists unconditionally when storage works, the
constructor therefore leaves a stored value equal to the resolved mode, and
after any sequence of post-construction events the OS-change listener's
no-stored-value guard never passes, so an OS change never moves
`currentTheme`. -/
theorem applyTheme_persists_and_guard_dead (st : ThemeState)
    (hsa : st.storageAvailable = true) :
    (∀ mode, (applyTheme mode st).stored = some mode) ∧
    ((themeManagerConstructor st).stored =
      some (themeManagerConstructor st).currentTheme) ∧
    (∀ (evs : List UserEvent) (b : Bool),
      (osPreferenceChange b
        (runEvents evs (themeManagerConstructor st))).currentTheme =
      (runEvents evs (themeManagerConstructor st)).currentTheme) := by
  refine ⟨fun mode => by simp [applyTheme_eq, hsa], ?_, ?_⟩
  · rw [themeManagerConstructor_eq]
    simp [hsa]
  · intro evs b
    exact osChange_fixes_currentTheme b _
      (runEvents_inv evs _ (constructor_inv st hsa))

theorem applyTheme_persists_and_guard_dead_witness :
    (applyTheme "dark" baseState).stored = some "dark" ∧
    (themeManagerConstructor baseState).stored =
      some (themeManagerConstructor baseState).currentTheme ∧
    (osPreferenceChange false
      (runEvents [UserEvent.toggle]
        (themeManagerConstructor baseState))).currentTheme =
    (runEvents [UserEvent.toggle]
      (themeManagerConstructor baseState)).currentTheme := by
  obtain ⟨h1, h2, h3⟩ := applyTheme_persists_and_guard_dead baseState rfl
  exact ⟨h1 "dark", h2, h3 [UserEvent.toggle] false⟩

/-- C10: `setTheme` with any argument outside `{dark, light}` changes
nothing at all: the entire state, event log included, is untouched. -/
theorem setTheme_invalid_noop (st : ThemeState) (mode : String)
    (h1 : mode ≠ "dark") (h2 : mode ≠ "light") :
    setTheme mode st = st := by
  unfold setTheme
  simp [h1, h2]

theorem setTheme_invalid_noop_witness :
    setTheme "blue" baseState = baseState :=
  setTheme_invalid_noop baseState "blue" (by decide) (by decide)

end ThemeManagerJs
